import Mathlib

/-!
Shallow embedding of the simple-test-mcp-rust MCP server.

The embedding covers the JSON data model and envelope types (types.rs),
the dispatcher and its eight handlers (server.rs), and the line-oriented
transport loop (main.rs).  JSON numbers are modelled as integers: every
claim settled by a theorem below moves number values around opaquely and
never depends on IEEE-754 semantics.
-/

namespace Mcp

/-- JSON values, mirroring serde_json::Value.  Objects are association
lists in insertion order.  Numbers are modelled as integers (see the
module comment). -/
inductive Json where
  | null : Json
  | bool : Bool → Json
  | num  : Int → Json
  | str  : String → Json
  | arr  : List Json → Json
  | obj  : List (String × Json) → Json

/-- Field lookup on a JSON object, first binding wins.  The claims below
never build objects with duplicate keys (serde would reject a duplicate
field during struct deserialization). -/
def Json.getField : Json → String → Option Json
  | Json.obj fields, k => List.lookup k fields
  | _, _ => none

/-- Value::as_str — a string exactly when the value is a JSON string. -/
def Json.asStr : Json → Option String
  | Json.str s => some s
  | _ => none

/-- Value::as_f64 restricted to the integer model of JSON numbers: a
number exactly when the value is a JSON number. -/
def Json.asNum : Json → Option Int
  | Json.num n => some n
  | _ => none

/-- Payload of a JSON object value, when the value is a JSON object. -/
def Json.asObj : Json → Option (List (String × Json))
  | Json.obj fields => some fields
  | _ => none

/-- HashMap::get on the arguments map.  serde builds the HashMap by
inserting entries in order, so a repeated key keeps its last value; the
lookup therefore takes the last binding. -/
def getArg (args : List (String × Json)) (k : String) : Option Json :=
  List.lookup k args.reverse

/-- JsonRpcRequest from types.rs: the deserialized request envelope. -/
structure JsonRpcRequest where
  jsonrpc : String
  id : Option Json
  method : String
  params : Option Json

/-- McpError from types.rs. -/
structure McpError where
  code : Int
  message : String

/-- McpResponse from types.rs.  The result and error fields carry
skip_serializing_if annotations; serialization is modelled by
McpResponse.toJson below. -/
structure McpResponse where
  jsonrpc : String
  id : Json
  result : Option Json
  error : Option McpError

/-- Tool descriptor from types.rs. -/
structure Tool where
  name : String
  description : String
  input_schema : Json

/-- Resource descriptor from types.rs. -/
structure Resource where
  uri : String
  name : String
  description : String
  mime_type : String

/-- Prompt descriptor from types.rs. -/
structure Prompt where
  name : String
  description : String

/-- McpServer from server.rs: the three static descriptor tables. -/
structure McpServer where
  tools : List Tool
  resources : List Resource
  prompts : List Prompt

/-- McpServer::new — the hardcoded descriptor tables, including the two
tool input schemas written as json! literals in the source. -/
def McpServer.new : McpServer :=
  { tools :=
      [ { name := "echo"
        , description := "Echoes back the input message"
        , input_schema := Json.obj
            [ ("type", Json.str "object")
            , ("properties", Json.obj
                [ ("message", Json.obj
                    [ ("type", Json.str "string")
                    , ("description", Json.str "The message to echo") ]) ])
            , ("required", Json.arr [Json.str "message"]) ] }
      , { name := "add"
        , description := "Adds two numbers together"
        , input_schema := Json.obj
            [ ("type", Json.str "object")
            , ("properties", Json.obj
                [ ("a", Json.obj
                    [ ("type", Json.str "number")
                    , ("description", Json.str "First number") ])
                , ("b", Json.obj
                    [ ("type", Json.str "number")
                    , ("description", Json.str "Second number") ]) ])
            , ("required", Json.arr [Json.str "a", Json.str "b"]) ] } ]
  , resources :=
      [ { uri := "file:///example.txt"
        , name := "Example File"
        , description := "An example text file"
        , mime_type := "text/plain" } ]
  , prompts :=
      [ { name := "hello"
        , description := "Returns a friendly greeting" } ] }

/-- ClientInfo from types.rs. -/
structure ClientInfo where
  name : String
  version : String

/-- InitializeParams from types.rs. -/
structure InitializeParams where
  protocol_version : String
  capabilities : List (String × Json)
  client_info : Option ClientInfo

/-- ToolCallParams from types.rs. -/
structure ToolCallParams where
  name : String
  arguments : List (String × Json)

/-- ResourceReadParams from types.rs. -/
structure ResourceReadParams where
  uri : String

/-- PromptGetParams from types.rs.  Its optional arguments field is
declared dead code in the source and never read, so it is dropped here. -/
structure PromptGetParams where
  name : String

/-- Deserialization of ClientInfo from a JSON value: an object with
string fields name and version (unknown fields ignored). -/
def parseClientInfo (j : Json) : Option ClientInfo := do
  let n ← (j.getField "name").bind Json.asStr
  let v ← (j.getField "version").bind Json.asStr
  some { name := n, version := v }

/-- Deserialization of InitializeParams: protocolVersion must be a
string, capabilities an object; clientInfo is optional (absent or null
means none, anything else must parse as ClientInfo). -/
def parseInitializeParams (j : Json) : Option InitializeParams := do
  let pv ← (j.getField "protocolVersion").bind Json.asStr
  let caps ← (j.getField "capabilities").bind Json.asObj
  let ci ← match j.getField "clientInfo" with
    | none => some none
    | some Json.null => some none
    | some cj => (parseClientInfo cj).map some
  some { protocol_version := pv, capabilities := caps, client_info := ci }

/-- Deserialization of ToolCallParams: name must be a string and
arguments an object (both required). -/
def parseToolCallParams (j : Json) : Option ToolCallParams := do
  let n ← (j.getField "name").bind Json.asStr
  let args ← (j.getField "arguments").bind Json.asObj
  some { name := n, arguments := args }

/-- Deserialization of ResourceReadParams: uri must be a string. -/
def parseResourceReadParams (j : Json) : Option ResourceReadParams := do
  let u ← (j.getField "uri").bind Json.asStr
  some { uri := u }

/-- Deserialization of PromptGetParams: name must be a string. -/
def parsePromptGetParams (j : Json) : Option PromptGetParams := do
  let n ← (j.getField "name").bind Json.asStr
  some { name := n }

/-- A successful handler response: jsonrpc "2.0", the request id with
Null as fallback, a result and no error — the record every handler in
server.rs constructs on success. -/
def okResponse (idv : Option Json) (payload : Json) : McpResponse :=
  { jsonrpc := "2.0"
  , id := idv.getD Json.null
  , result := some payload
  , error := none }

/-- Rendering of an integer-valued JSON number, matching what the Rust
default f64 Display prints on integer-valued floats (no fractional
part). -/
def formatNum (n : Int) : String := toString n

/-- McpServer::execute_tool.  The add branch operates on the integer
model of JSON numbers; its result string for integer inputs coincides
with the f64 formatting in the source. -/
def executeTool (name : String) (args : List (String × Json)) :
    Except String String :=
  if name = "echo" then
    match (getArg args "message").bind Json.asStr with
    | some m => Except.ok ("Echo: " ++ m)
    | none => Except.error "Missing \x27message\x27 argument"
  else if name = "add" then
    match (getArg args "a").bind Json.asNum with
    | none => Except.error "Missing \x27a\x27 argument"
    | some a =>
      match (getArg args "b").bind Json.asNum with
      | none => Except.error "Missing \x27b\x27 argument"
      | some b =>
        Except.ok (formatNum a ++ " + " ++ formatNum b ++ " = " ++ formatNum (a + b))
  else Except.error ("Unknown tool: " ++ name)

/-- McpServer::read_resource — the one-entry canned resource table. -/
def read_resource (uri : String) : Except String String :=
  if uri = "file:///example.txt" then
    Except.ok "This is an example text file content.\nIt contains some sample text for demonstration purposes."
  else Except.error ("Resource not found: " ++ uri)

/-- Result payload of the initialize handler (fixed capability
announcement). -/
def initialize_result : Json :=
  Json.obj
    [ ("protocolVersion", Json.str "2024-11-05")
    , ("capabilities", Json.obj
        [ ("tools", Json.obj [("listChanged", Json.bool true)])
        , ("resources", Json.obj [("listChanged", Json.bool true)])
        , ("prompts", Json.obj [("listChanged", Json.bool true)]) ])
    , ("serverInfo", Json.obj
        [ ("name", Json.str "leap-mcp")
        , ("version", Json.str "0.1.0") ]) ]

/-- JSON projection of one tool descriptor, as handle_tools_list maps it. -/
def toolToJson (t : Tool) : Json :=
  Json.obj
    [ ("name", Json.str t.name)
    , ("description", Json.str t.description)
    , ("inputSchema", t.input_schema) ]

/-- Result payload of handle_tools_list. -/
def tools_list_result (s : McpServer) : Json :=
  Json.obj [("tools", Json.arr (s.tools.map toolToJson))]

/-- JSON projection of one resource descriptor, as handle_resources_list
maps it. -/
def resourceToJson (r : Resource) : Json :=
  Json.obj
    [ ("uri", Json.str r.uri)
    , ("name", Json.str r.name)
    , ("description", Json.str r.description)
    , ("mimeType", Json.str r.mime_type) ]

/-- Result payload of handle_resources_list. -/
def resources_list_result (s : McpServer) : Json :=
  Json.obj [("resources", Json.arr (s.resources.map resourceToJson))]

/-- JSON projection of one prompt descriptor, as handle_prompts_list
maps it. -/
def promptToJson (p : Prompt) : Json :=
  Json.obj
    [ ("name", Json.str p.name)
    , ("description", Json.str p.description) ]

/-- Result payload of handle_prompts_list. -/
def prompts_list_result (s : McpServer) : Json :=
  Json.obj [("prompts", Json.arr (s.prompts.map promptToJson))]

/-- Result payload of handle_tools_call: the computed text wrapped as a
single text content item with isError always false. -/
def tool_call_result (text : String) : Json :=
  Json.obj
    [ ("content", Json.arr
        [ Json.obj [("type", Json.str "text"), ("text", Json.str text)] ])
    , ("isError", Json.bool false) ]

/-- Result payload of handle_resources_read: the mimeType is the literal
string text/plain, independent of the descriptor table. -/
def resources_read_result (uri text : String) : Json :=
  Json.obj
    [ ("contents", Json.arr
        [ Json.obj
            [ ("uri", Json.str uri)
            , ("mimeType", Json.str "text/plain")
            , ("text", Json.str text) ] ]) ]

/-- Result payload of handle_prompts_get. -/
def prompts_get_result (text : String) : Json :=
  Json.obj
    [ ("messages", Json.arr
        [ Json.obj
            [ ("role", Json.str "user")
            , ("content", Json.arr
                [ Json.obj [("type", Json.str "text"), ("text", Json.str text)] ]) ] ]) ]

/-- McpServer::handle_initialize.  Absent params default to the empty
object (which then fails deserialization on the missing
protocolVersion).  The serde diagnostic text is abstracted to a fixed
message; only its presence matters to the claims. -/
def handle_initialize (idv : Option Json) (params : Option Json) :
    Except String (Option McpResponse) :=
  match parseInitializeParams (params.getD (Json.obj [])) with
  | none => Except.error "invalid initialize params"
  | some _ => Except.ok (some (okResponse idv initialize_result))

/-- McpServer::handle_tools_list. -/
def handle_tools_list (s : McpServer) (idv : Option Json) :
    Except String (Option McpResponse) :=
  Except.ok (some (okResponse idv (tools_list_result s)))

/-- McpServer::handle_tools_call.  Missing params is its own error; a
params value that fails to deserialize is a (serde) error with
abstracted text; a tool failure propagates the message of the tool. -/
def handle_tools_call (idv : Option Json) (params : Option Json) :
    Except String (Option McpResponse) :=
  match params with
  | none => Except.error "Missing params"
  | some p =>
    match parseToolCallParams p with
    | none => Except.error "invalid tool call params"
    | some tc =>
      match executeTool tc.name tc.arguments with
      | Except.error e => Except.error e
      | Except.ok text => Except.ok (some (okResponse idv (tool_call_result text)))

/-- McpServer::handle_resources_list. -/
def handle_resources_list (s : McpServer) (idv : Option Json) :
    Except String (Option McpResponse) :=
  Except.ok (some (okResponse idv (resources_list_result s)))

/-- McpServer::handle_resources_read. -/
def handle_resources_read (idv : Option Json) (params : Option Json) :
    Except String (Option McpResponse) :=
  match params with
  | none => Except.error "Missing params"
  | some p =>
    match parseResourceReadParams p with
    | none => Except.error "invalid resource read params"
    | some rp =>
      match read_resource rp.uri with
      | Except.error e => Except.error e
      | Except.ok content =>
          Except.ok (some (okResponse idv (resources_read_result rp.uri content)))

/-- McpServer::handle_prompts_list. -/
def handle_prompts_list (s : McpServer) (idv : Option Json) :
    Except String (Option McpResponse) :=
  Except.ok (some (okResponse idv (prompts_list_result s)))

/-- McpServer::handle_prompts_get. -/
def handle_prompts_get (idv : Option Json) (params : Option Json) :
    Except String (Option McpResponse) :=
  match params with
  | none => Except.error "Missing params"
  | some p =>
    match parsePromptGetParams p with
    | none => Except.error "invalid prompt get params"
    | some pp =>
      if pp.name = "hello" then
        Except.ok (some (okResponse idv (prompts_get_result "Hello from leap-mcp prompts!")))
      else Except.error ("Unknown prompt: " ++ pp.name)

/-- Notification envelope built by McpServer::send_notification. -/
def notificationJson (method : String) (params : Json) : Json :=
  Json.obj
    [ ("jsonrpc", Json.str "2.0")
    , ("method", Json.str method)
    , ("params", params) ]

/-- The three notification envelopes handle_initialized writes, in
order. -/
def initializedNotes : List Json :=
  [ notificationJson "tools/listChanged" (Json.obj [])
  , notificationJson "resources/listChanged" (Json.obj [])
  , notificationJson "prompts/listChanged" (Json.obj []) ]

/-- McpServer::handle_request — dispatch on the method string, made by
sequential equality tests exactly as a Rust match on a string slice.
Each handler only reads the request id and params, never the jsonrpc
tag.  The initialized branch returns no response; its notification
writes are modelled by notificationsFor below. -/
def handle_request (s : McpServer) (r : JsonRpcRequest) :
    Except String (Option McpResponse) :=
  if r.method = "initialize" then handle_initialize r.id r.params
  else if r.method = "tools/list" then handle_tools_list s r.id
  else if r.method = "tools/call" then handle_tools_call r.id r.params
  else if r.method = "resources/list" then handle_resources_list s r.id
  else if r.method = "resources/read" then handle_resources_read r.id r.params
  else if r.method = "prompts/list" then handle_prompts_list s r.id
  else if r.method = "prompts/get" then handle_prompts_get r.id r.params
  else if r.method = "initialized" then Except.ok none
  else Except.error ("Unknown method: " ++ r.method)

/-- Notification lines the handler of a request writes to stdout before the
transport loop writes any response: only handle_initialized writes
(its three listChanged notifications); every other handler writes
nothing. -/
def notificationsFor (r : JsonRpcRequest) : List Json :=
  if r.method = "initialized" then initializedNotes else []

/-- Parse outcome of one trimmed nonblank input line.  The transport
loop feeds each line to serde_json::from_str (third-party code, not
modelled): the line is either not a valid request envelope (malformed,
carrying the parser diagnostic) or deserializes to a JsonRpcRequest.
Blank lines are kept as their own case so the skip in the loop is visible. -/
inductive ParsedLine where
  | blank : ParsedLine
  | malformed : String → ParsedLine
  | req : JsonRpcRequest → ParsedLine

/-- One line written to stdout: either a response envelope or a raw
notification envelope. -/
inductive OutLine where
  | resp : McpResponse → OutLine
  | note : Json → OutLine

/-- The parse-error response main.rs builds for a malformed line: code
-32700 and the fixed sentinel id "parse_error". -/
def parseErrorResponse (diag : String) : McpResponse :=
  { jsonrpc := "2.0"
  , id := Json.str "parse_error"
  , result := none
  , error := some { code := -32700, message := "Parse error: " ++ diag } }

/-- The internal-error response main.rs builds when a handler fails:
code -32603, the request id with the sentinel string "error" as
fallback. -/
def internalErrorResponse (idv : Option Json) (e : String) : McpResponse :=
  { jsonrpc := "2.0"
  , id := idv.getD (Json.str "error")
  , result := none
  , error := some { code := -32603, message := "Internal error: " ++ e } }

/-- Processing of one input line by the transport loop in main.rs: the
lines written to stdout, in order (notification writes made by a
handler precede the response write made by the loop). -/
def processLine (s : McpServer) : ParsedLine → List OutLine
  | ParsedLine.blank => []
  | ParsedLine.malformed diag => [OutLine.resp (parseErrorResponse diag)]
  | ParsedLine.req r =>
      (notificationsFor r).map OutLine.note ++
      (match handle_request s r with
       | Except.ok (some m) => [OutLine.resp m]
       | Except.ok none => []
       | Except.error e => [OutLine.resp (internalErrorResponse r.id e)])

/-- The whole read loop of main.rs over a finite input stream: each
line is processed independently and the loop ends at end of input. -/
def main_loop (s : McpServer) : List ParsedLine → List OutLine
  | [] => []
  | l :: rest => processLine s l ++ main_loop s rest

/-- Serialization of a response envelope, honoring the
skip_serializing_if annotations: the result and error fields appear
exactly when they are set. -/
def McpResponse.toJson (m : McpResponse) : Json :=
  Json.obj
    ([("jsonrpc", Json.str m.jsonrpc), ("id", m.id)] ++
     (match m.result with
      | some v => [("result", v)]
      | none => []) ++
     (match m.error with
      | some e => [("error", Json.obj [("code", Json.num e.code), ("message", Json.str e.message)])]
      | none => []))

/-- Presence of a key in a serialized JSON object. -/
def Json.hasKey : Json → String → Bool
  | Json.obj fields, k => fields.any (fun p => p.1 == k)
  | _, _ => false

/-- Whether an output line is a response envelope (rather than a
notification). -/
def OutLine.isResp : OutLine → Bool
  | OutLine.resp _ => true
  | OutLine.note _ => false

/-- The jsonrpc tag an output line carries is the string "2.0". -/
def emitsJsonrpc20 : OutLine → Bool
  | OutLine.resp m => m.jsonrpc == "2.0"
  | OutLine.note j =>
      match j.getField "jsonrpc" with
      | some (Json.str s) => s == "2.0"
      | _ => false

theorem handle_initialize_shape (idv p : Option Json) (m : McpResponse)
    (h : handle_initialize idv p = Except.ok (some m)) :
    ∃ pay, m = okResponse idv pay := by
  unfold handle_initialize at h
  split at h
  · exact absurd h (by simp)
  · exact ⟨_, by injection h with h1; injection h1 with h2; exact h2.symm⟩

theorem handle_tools_call_shape (idv p : Option Json) (m : McpResponse)
    (h : handle_tools_call idv p = Except.ok (some m)) :
    ∃ pay, m = okResponse idv pay := by
  unfold handle_tools_call at h
  split at h
  · exact absurd h (by simp)
  · split at h
    · exact absurd h (by simp)
    · split at h
      · exact absurd h (by simp)
      · exact ⟨_, by injection h with h1; injection h1 with h2; exact h2.symm⟩

theorem handle_resources_read_shape (idv p : Option Json) (m : McpResponse)
    (h : handle_resources_read idv p = Except.ok (some m)) :
    ∃ pay, m = okResponse idv pay := by
  unfold handle_resources_read at h
  split at h
  · exact absurd h (by simp)
  · split at h
    · exact absurd h (by simp)
    · split at h
      · exact absurd h (by simp)
      · exact ⟨_, by injection h with h1; injection h1 with h2; exact h2.symm⟩

theorem handle_prompts_get_shape (idv p : Option Json) (m : McpResponse)
    (h : handle_prompts_get idv p = Except.ok (some m)) :
    ∃ pay, m = okResponse idv pay := by
  unfold handle_prompts_get at h
  split at h
  · exact absurd h (by simp)
  · split at h
    · exact absurd h (by simp)
    · split at h
      · exact ⟨_, by injection h with h1; injection h1 with h2; exact h2.symm⟩
      · exact absurd h (by simp)

theorem handle_request_ok_shape (s : McpServer) (r : JsonRpcRequest) (m : McpResponse)
    (h : handle_request s r = Except.ok (some m)) :
    ∃ pay, m = okResponse r.id pay := by
  unfold handle_request at h
  split_ifs at h
  · exact handle_initialize_shape _ _ _ h
  · exact ⟨_, by injection h with h1; injection h1 with h2; exact h2.symm⟩
  · exact handle_tools_call_shape _ _ _ h
  · exact ⟨_, by injection h with h1; injection h1 with h2; exact h2.symm⟩
  · exact handle_resources_read_shape _ _ _ h
  · exact ⟨_, by injection h with h1; injection h1 with h2; exact h2.symm⟩
  · exact handle_prompts_get_shape _ _ _ h
  · exact absurd h (by simp)

theorem handle_request_initialized (s : McpServer) (r : JsonRpcRequest)
    (h : r.method = "initialized") :
    handle_request s r = Except.ok none ∧ notificationsFor r = initializedNotes := by
  constructor
  · unfold handle_request; rw [h]; simp
  · unfold notificationsFor; rw [h]; simp

theorem processLine_resp_mem (s : McpServer) (pl : ParsedLine) (m : McpResponse)
    (h : OutLine.resp m ∈ processLine s pl) :
    (∃ d, pl = ParsedLine.malformed d ∧ m = parseErrorResponse d) ∨
    (∃ r pay, pl = ParsedLine.req r ∧ m = okResponse r.id pay) ∨
    (∃ r e, pl = ParsedLine.req r ∧ m = internalErrorResponse r.id e) := by
  cases pl with
  | blank => simp [processLine] at h
  | malformed d =>
      simp [processLine] at h
      exact Or.inl ⟨d, rfl, h⟩
  | req r =>
      simp only [processLine] at h
      rcases List.mem_append.mp h with h1 | h2
      · rcases List.mem_map.mp h1 with ⟨j, _, hj⟩
        exact OutLine.noConfusion hj
      · cases hE : handle_request s r with
        | ok o =>
            cases o with
            | some mm =>
                rw [hE] at h2
                simp at h2
                obtain ⟨pay, hpay⟩ := handle_request_ok_shape s r mm hE
                exact Or.inr (Or.inl ⟨r, pay, rfl, h2 ▸ hpay⟩)
            | none => rw [hE] at h2; simp at h2
        | error e =>
            rw [hE] at h2
            simp at h2
            exact Or.inr (Or.inr ⟨r, e, rfl, h2⟩)

theorem processLine_note_mem (s : McpServer) (pl : ParsedLine) (j : Json)
    (h : OutLine.note j ∈ processLine s pl) : j ∈ initializedNotes := by
  cases pl with
  | blank => simp [processLine] at h
  | malformed d => simp [processLine] at h
  | req r =>
      simp only [processLine] at h
      rcases List.mem_append.mp h with h1 | h2
      · rcases List.mem_map.mp h1 with ⟨j2, hj2, hj⟩
        injection hj with hj'
        subst hj'
        unfold notificationsFor at hj2
        split at hj2
        · exact hj2
        · simp at hj2
      · cases hE : handle_request s r with
        | ok o =>
            cases o with
            | some mm => rw [hE] at h2; simp at h2
            | none => rw [hE] at h2; simp at h2
        | error e => rw [hE] at h2; simp at h2

/-- A dispatch outcome of ok-with-no-response only arises from the
initialized branch: every other handler returns a response or an
error. -/
theorem handle_request_ok_none (s : McpServer) (r : JsonRpcRequest)
    (h : handle_request s r = Except.ok none) : r.method = "initialized" := by
  unfold handle_request at h
  split_ifs at h with h1 h2 h3 h4 h5 h6 h7 h8
  · unfold handle_initialize at h
    split at h <;> simp at h
  · simp [handle_tools_list] at h
  · unfold handle_tools_call at h
    split at h
    · simp at h
    · split at h
      · simp at h
      · split at h <;> simp at h
  · simp [handle_resources_list] at h
  · unfold handle_resources_read at h
    split at h
    · simp at h
    · split at h
      · simp at h
      · split at h <;> simp at h
  · simp [handle_prompts_list] at h
  · unfold handle_prompts_get at h
    split at h
    · simp at h
    · split at h
      · simp at h
      · split at h <;> simp at h
  · exact h8

/-- Claim C1: for every request that carries a correlation id, every
response the transport loop emits for it — success or internal error —
has an id equal to the id of the request, value for value. -/
theorem C1_id_echoed (r : JsonRpcRequest) (idv : Json) (h : r.id = some idv)
    (m : McpResponse)
    (hm : OutLine.resp m ∈ processLine McpServer.new (ParsedLine.req r)) :
    m.id = idv := by
  rcases processLine_resp_mem _ _ _ hm with ⟨d, hd, _⟩ | ⟨r2, pay, hr, hmm⟩ | ⟨r2, e, hr, hmm⟩
  · exact ParsedLine.noConfusion hd
  · injection hr with hr2
    subst hr2
    subst hmm
    simp [okResponse, h]
  · injection hr with hr2
    subst hr2
    subst hmm
    simp [internalErrorResponse, h]

/-- Witness for C1 at a concrete prompts/list request with id 7. -/
theorem C1_id_echoed_witness :
    (okResponse (some (Json.num 7)) (prompts_list_result McpServer.new)).id = Json.num 7 :=
  C1_id_echoed
    { jsonrpc := "2.0", id := some (Json.num 7), method := "prompts/list", params := none }
    (Json.num 7) rfl _ (List.mem_singleton.mpr rfl)

/-- Counterexample to claim C2 as stated: a request with no id and
method tools/list does get a response line (with id null). -/
theorem C2_counterexample :
    processLine McpServer.new
        (ParsedLine.req { jsonrpc := "2.0", id := none, method := "tools/list", params := none }) =
      [OutLine.resp (okResponse none (tools_list_result McpServer.new))] ∧
    [OutLine.resp (okResponse none (tools_list_result McpServer.new))] ≠ ([] : List OutLine) :=
  ⟨rfl, by simp⟩

/-- Claim C2 amended: only a request with method initialized produces
no response line (it emits just the three notification lines); a
request with absent id and any other method yields exactly one
response line — on handler success its id is JSON null, on handler
failure its id is the sentinel string. -/
theorem C2_amended_no_id (r : JsonRpcRequest) (h : r.id = none) :
    (r.method = "initialized" →
        processLine McpServer.new (ParsedLine.req r) =
          initializedNotes.map OutLine.note ∧
        (processLine McpServer.new (ParsedLine.req r)).all (fun l => !l.isResp) = true) ∧
    (r.method ≠ "initialized" →
        (∃ pay, handle_request McpServer.new r = Except.ok (some (okResponse none pay)) ∧
            processLine McpServer.new (ParsedLine.req r) =
              [OutLine.resp (okResponse none pay)] ∧
            (okResponse none pay).id = Json.null) ∨
        (∃ e, handle_request McpServer.new r = Except.error e ∧
            processLine McpServer.new (ParsedLine.req r) =
              [OutLine.resp (internalErrorResponse none e)] ∧
            (internalErrorResponse none e).id = Json.str "error")) := by
  constructor
  · intro hm
    obtain ⟨h1, h2⟩ := handle_request_initialized McpServer.new r hm
    have hEq : processLine McpServer.new (ParsedLine.req r) =
        initializedNotes.map OutLine.note := by
      simp only [processLine]
      rw [h1, h2]
      simp
    exact ⟨hEq, by rw [hEq]; rfl⟩
  · intro hm
    have hnotes : notificationsFor r = [] := by
      unfold notificationsFor
      rw [if_neg hm]
    cases hE : handle_request McpServer.new r with
    | ok o =>
        cases o with
        | some m =>
            obtain ⟨pay, hpay⟩ := handle_request_ok_shape McpServer.new r m hE
            rw [h] at hpay
            left
            refine ⟨pay, by rw [hpay], ?_, rfl⟩
            simp only [processLine]
            rw [hnotes, hE, hpay]
            simp
        | none => exact absurd (handle_request_ok_none McpServer.new r hE) hm
    | error e =>
        right
        refine ⟨e, rfl, ?_, rfl⟩
        simp only [processLine]
        rw [hnotes, hE, h]
        simp

/-- Witness for the amended C2: an id-less initialized request emits
only the three notification lines, and an id-less tools/list request
gets exactly one response line. -/
theorem C2_amended_no_id_witness :
    (processLine McpServer.new
        (ParsedLine.req { jsonrpc := "2.0", id := none, method := "initialized", params := none }) =
          initializedNotes.map OutLine.note ∧
     (processLine McpServer.new
        (ParsedLine.req { jsonrpc := "2.0", id := none, method := "initialized", params := none })).all
        (fun l => !l.isResp) = true) ∧
    ((∃ pay, handle_request McpServer.new
          { jsonrpc := "2.0", id := none, method := "tools/list", params := none } =
            Except.ok (some (okResponse none pay)) ∧
        processLine McpServer.new
          (ParsedLine.req { jsonrpc := "2.0", id := none, method := "tools/list", params := none }) =
            [OutLine.resp (okResponse none pay)] ∧
        (okResponse none pay).id = Json.null) ∨
     (∃ e, handle_request McpServer.new
          { jsonrpc := "2.0", id := none, method := "tools/list", params := none } =
            Except.error e ∧
        processLine McpServer.new
          (ParsedLine.req { jsonrpc := "2.0", id := none, method := "tools/list", params := none }) =
            [OutLine.resp (internalErrorResponse none e)] ∧
        (internalErrorResponse none e).id = Json.str "error")) :=
  ⟨(C2_amended_no_id
      { jsonrpc := "2.0", id := none, method := "initialized", params := none } rfl).1 rfl,
   (C2_amended_no_id
      { jsonrpc := "2.0", id := none, method := "tools/list", params := none } rfl).2
     (by decide)⟩

/-- Claim C3: every response envelope the server emits serializes with
exactly one of the result and error fields present. -/
theorem C3_result_xor_error (pl : ParsedLine) (m : McpResponse)
    (hm : OutLine.resp m ∈ processLine McpServer.new pl) :
    (Json.hasKey m.toJson "result" = true ∧ Json.hasKey m.toJson "error" = false) ∨
    (Json.hasKey m.toJson "result" = false ∧ Json.hasKey m.toJson "error" = true) := by
  rcases processLine_resp_mem _ _ _ hm with ⟨d, _, hmm⟩ | ⟨r, pay, _, hmm⟩ | ⟨r, e, _, hmm⟩
  · subst hmm; exact Or.inr ⟨rfl, rfl⟩
  · subst hmm; exact Or.inl ⟨rfl, rfl⟩
  · subst hmm; exact Or.inr ⟨rfl, rfl⟩

/-- Witness for C3 at a malformed input line. -/
theorem C3_result_xor_error_witness :
    (Json.hasKey (parseErrorResponse "bad json").toJson "result" = true ∧
     Json.hasKey (parseErrorResponse "bad json").toJson "error" = false) ∨
    (Json.hasKey (parseErrorResponse "bad json").toJson "result" = false ∧
     Json.hasKey (parseErrorResponse "bad json").toJson "error" = true) :=
  C3_result_xor_error (ParsedLine.malformed "bad json") (parseErrorResponse "bad json")
    (List.mem_singleton.mpr rfl)

/-- Claim C4: a malformed input line yields exactly one error response
with code -32700 and the fixed sentinel id, and the read loop continues:
a subsequent well-formed line is still dispatched normally. -/
theorem C4_parse_error_recovery (d : String) (rest : List ParsedLine)
    (r : JsonRpcRequest) (rest2 : List ParsedLine) :
    main_loop McpServer.new (ParsedLine.malformed d :: rest) =
      OutLine.resp (parseErrorResponse d) :: main_loop McpServer.new rest ∧
    (parseErrorResponse d).error =
      some { code := -32700, message := "Parse error: " ++ d } ∧
    (parseErrorResponse d).id = Json.str "parse_error" ∧
    (parseErrorResponse d).result = none ∧
    main_loop McpServer.new (ParsedLine.req r :: rest2) =
      processLine McpServer.new (ParsedLine.req r) ++ main_loop McpServer.new rest2 :=
  ⟨rfl, rfl, rfl, rfl, rfl⟩

/-- Claim C5: the echo tool succeeds exactly on a string message
argument, returning the literal Echo prefix followed by the message;
an absent or non-string message fails with the fixed error text; a
concrete call with message hi yields result text Echo: hi. -/
theorem C5_echo_tool (args : List (String × Json)) (msg : String)
    (idv : Option Json) (jr : String) :
    (getArg args "message" = some (Json.str msg) →
       executeTool "echo" args = Except.ok ("Echo: " ++ msg)) ∧
    ((getArg args "message").bind Json.asStr = none →
       executeTool "echo" args = Except.error "Missing \x27message\x27 argument") ∧
    handle_request McpServer.new
        { jsonrpc := jr, id := idv, method := "tools/call",
          params := some (Json.obj
            [ ("name", Json.str "echo")
            , ("arguments", Json.obj [("message", Json.str "hi")]) ]) } =
      Except.ok (some (okResponse idv (tool_call_result "Echo: hi"))) := by
  refine ⟨?_, ?_, rfl⟩
  · intro h
    unfold executeTool
    simp [h, Json.asStr]
  · intro h
    unfold executeTool
    simp [h]

/-- Witness for C5: a present string message and an absent message. -/
theorem C5_echo_tool_witness :
    executeTool "echo" [("message", Json.str "hi")] = Except.ok ("Echo: " ++ "hi") ∧
    executeTool "echo" [("x", Json.num 1)] = Except.error "Missing \x27message\x27 argument" :=
  ⟨(C5_echo_tool [("message", Json.str "hi")] "hi" none "2.0").1 rfl,
   (C5_echo_tool [("x", Json.num 1)] "" none "2.0").2.1 rfl⟩

/-- Claim C7: every handler-level failure is surfaced as a single
response with error code -32603, a message carrying the handler
diagnostic, and no result; in particular a tools/call naming the tool
nonexistent fails that way. -/
theorem C7_internal_error (r : JsonRpcRequest) (e : String)
    (jr : String) (idv : Option Json)
    (h : handle_request McpServer.new r = Except.error e) :
    processLine McpServer.new (ParsedLine.req r) =
      [OutLine.resp (internalErrorResponse r.id e)] ∧
    (internalErrorResponse r.id e).error =
      some { code := -32603, message := "Internal error: " ++ e } ∧
    (internalErrorResponse r.id e).result = none ∧
    handle_request McpServer.new
        { jsonrpc := jr, id := idv, method := "tools/call",
          params := some (Json.obj
            [ ("name", Json.str "nonexistent")
            , ("arguments", Json.obj []) ]) } =
      Except.error "Unknown tool: nonexistent" := by
  refine ⟨?_, rfl, rfl, rfl⟩
  have hnotes : notificationsFor r = [] := by
    by_cases hm : r.method = "initialized"
    · exact absurd h (by rw [(handle_request_initialized McpServer.new r hm).1]; simp)
    · unfold notificationsFor
      rw [if_neg hm]
  simp only [processLine]
  rw [hnotes, h]
  simp

/-- Witness for C7 at the concrete nonexistent tool call. -/
theorem C7_internal_error_witness :
    processLine McpServer.new
        (ParsedLine.req
          { jsonrpc := "2.0", id := some (Json.num 3), method := "tools/call",
            params := some (Json.obj
              [ ("name", Json.str "nonexistent")
              , ("arguments", Json.obj []) ]) }) =
      [OutLine.resp (internalErrorResponse (some (Json.num 3)) "Unknown tool: nonexistent")] ∧
    (internalErrorResponse (some (Json.num 3)) "Unknown tool: nonexistent").error =
      some { code := -32603, message := "Internal error: " ++ "Unknown tool: nonexistent" } ∧
    (internalErrorResponse (some (Json.num 3)) "Unknown tool: nonexistent").result = none ∧
    handle_request McpServer.new
        { jsonrpc := "2.0", id := some (Json.num 3), method := "tools/call",
          params := some (Json.obj
            [ ("name", Json.str "nonexistent")
            , ("arguments", Json.obj []) ]) } =
      Except.error "Unknown tool: nonexistent" :=
  C7_internal_error
    { jsonrpc := "2.0", id := some (Json.num 3), method := "tools/call",
      params := some (Json.obj
        [ ("name", Json.str "nonexistent")
        , ("arguments", Json.obj []) ]) }
    "Unknown tool: nonexistent" "2.0" (some (Json.num 3)) rfl

/-- Claim C8: resources/read on the canned uri succeeds with the exact
two-line text and a mimeType hardcoded to text/plain, and any other uri
fails with a resource-not-found error. -/
theorem C8_resources_read (jr : String) (idv : Option Json) (uri : String)
    (h : uri ≠ "file:///example.txt") :
    handle_request McpServer.new
        { jsonrpc := jr, id := idv, method := "resources/read",
          params := some (Json.obj [("uri", Json.str "file:///example.txt")]) } =
      Except.ok (some (okResponse idv (Json.obj
        [ ("contents", Json.arr
            [ Json.obj
                [ ("uri", Json.str "file:///example.txt")
                , ("mimeType", Json.str "text/plain")
                , ("text", Json.str "This is an example text file content.\nIt contains some sample text for demonstration purposes.") ] ]) ]))) ∧
    handle_request McpServer.new
        { jsonrpc := jr, id := idv, method := "resources/read",
          params := some (Json.obj [("uri", Json.str uri)]) } =
      Except.error ("Resource not found: " ++ uri) := by
  refine ⟨rfl, ?_⟩
  have hr : read_resource uri = Except.error ("Resource not found: " ++ uri) := by
    unfold read_resource
    rw [if_neg h]
  show (match read_resource uri with
        | Except.error e => Except.error e
        | Except.ok content =>
            Except.ok (some (okResponse idv (resources_read_result uri content)))) =
      Except.error ("Resource not found: " ++ uri)
  rw [hr]

/-- Witness for C8 at the concrete missing uri. -/
theorem C8_resources_read_witness :
    handle_request McpServer.new
        { jsonrpc := "2.0", id := some (Json.num 5), method := "resources/read",
          params := some (Json.obj [("uri", Json.str "file:///example.txt")]) } =
      Except.ok (some (okResponse (some (Json.num 5)) (Json.obj
        [ ("contents", Json.arr
            [ Json.obj
                [ ("uri", Json.str "file:///example.txt")
                , ("mimeType", Json.str "text/plain")
                , ("text", Json.str "This is an example text file content.\nIt contains some sample text for demonstration purposes.") ] ]) ]))) ∧
    handle_request McpServer.new
        { jsonrpc := "2.0", id := some (Json.num 5), method := "resources/read",
          params := some (Json.obj [("uri", Json.str "file:///missing.txt")]) } =
      Except.error ("Resource not found: " ++ "file:///missing.txt") :=
  C8_resources_read "2.0" (some (Json.num 5)) "file:///missing.txt" (by decide)

/-- Claim C9: a request with method initialized writes exactly the
three listChanged notification lines, in order, each carrying an empty
params object and no id field, and no response envelope at all. -/
theorem C9_initialized_notifications (r : JsonRpcRequest)
    (h : r.method = "initialized") :
    processLine McpServer.new (ParsedLine.req r) =
      [ OutLine.note (Json.obj
          [ ("jsonrpc", Json.str "2.0")
          , ("method", Json.str "tools/listChanged")
          , ("params", Json.obj []) ])
      , OutLine.note (Json.obj
          [ ("jsonrpc", Json.str "2.0")
          , ("method", Json.str "resources/listChanged")
          , ("params", Json.obj []) ])
      , OutLine.note (Json.obj
          [ ("jsonrpc", Json.str "2.0")
          , ("method", Json.str "prompts/listChanged")
          , ("params", Json.obj []) ]) ] ∧
    (processLine McpServer.new (ParsedLine.req r)).all (fun l => !l.isResp) = true := by
  obtain ⟨h1, h2⟩ := handle_request_initialized McpServer.new r h
  have hEq : processLine McpServer.new (ParsedLine.req r) =
      initializedNotes.map OutLine.note := by
    simp only [processLine]
    rw [h1, h2]
    simp
  refine ⟨?_, ?_⟩
  · rw [hEq]; rfl
  · rw [hEq]; rfl

/-- Witness for C9 at a concrete initialized request. -/
theorem C9_initialized_notifications_witness :
    processLine McpServer.new
        (ParsedLine.req { jsonrpc := "2.0", id := some (Json.num 2),
                          method := "initialized", params := some (Json.obj []) }) =
      [ OutLine.note (Json.obj
          [ ("jsonrpc", Json.str "2.0")
          , ("method", Json.str "tools/listChanged")
          , ("params", Json.obj []) ])
      , OutLine.note (Json.obj
          [ ("jsonrpc", Json.str "2.0")
          , ("method", Json.str "resources/listChanged")
          , ("params", Json.obj []) ])
      , OutLine.note (Json.obj
          [ ("jsonrpc", Json.str "2.0")
          , ("method", Json.str "prompts/listChanged")
          , ("params", Json.obj []) ]) ] ∧
    (processLine McpServer.new
        (ParsedLine.req { jsonrpc := "2.0", id := some (Json.num 2),
                          method := "initialized", params := some (Json.obj []) })).all
      (fun l => !l.isResp) = true :=
  C9_initialized_notifications
    { jsonrpc := "2.0", id := some (Json.num 2),
      method := "initialized", params := some (Json.obj []) } rfl

/-- Claim C10: dispatch and output never depend on the jsonrpc tag of a
parsed request, and every line the server emits carries the jsonrpc tag
2.0. -/
theorem C10_jsonrpc_opaque (r : JsonRpcRequest) (s1 s2 : String) (pl : ParsedLine) :
    processLine McpServer.new (ParsedLine.req { r with jsonrpc := s1 }) =
      processLine McpServer.new (ParsedLine.req { r with jsonrpc := s2 }) ∧
    (processLine McpServer.new pl).all emitsJsonrpc20 = true := by
  constructor
  · cases r
    rfl
  · rw [List.all_eq_true]
    intro l hl
    cases l with
    | resp m =>
        rcases processLine_resp_mem _ _ _ hl with ⟨d, _, hmm⟩ | ⟨r2, pay, _, hmm⟩ | ⟨r2, e, _, hmm⟩ <;>
          subst hmm <;> rfl
    | note j =>
        have hj : j ∈ initializedNotes := processLine_note_mem _ _ _ hl
        simp only [initializedNotes, notificationJson, List.mem_cons, List.mem_singleton] at hj
        rcases hj with h | h | h | h
        · subst h; rfl
        · subst h; rfl
        · subst h; rfl
        · simp at h

end Mcp
